import Mathlib

/-!
Shallow embedding of `hooks/charmhelpers/contrib/network/ip.py` from charm-cinder.

The module is a network-address resolver with four operations:
`get_address_in_network`, `is_address_in_network`, `get_iface_for_address`
and `get_netmask_for_address`. It depends on two external collaborators,
which the spec places out of scope and which we model here for IPv4:

* `netaddr` (CIDR/IP parsing and containment): modelled by `parseIPv4Chars`,
  `parseIPNetworkChars`, `IPNetwork.containsAddr`, `IPNetwork.containsNet`
  and `ipv4ToString` (the decimal dotted-quad rendering used by
  `str(cidr.ip)`).
* `netifaces` (interface enumeration): a call-time snapshot is a
  `List Iface`; each interface carries its AF_INET entry list, whose
  entries have `addr` and `netmask` strings.

Python exceptions and `sys.exit` are modelled by the `Outcome` type:
`ok` is a normal return, `error` a raised validation exception
(`ValueError` / `AddrFormatError`), `exited` a `sys.exit` after an
error-level log message.
-/

set_option autoImplicit false

/-- Decimal digit value of a character: `some (c - 48)` for `0`..`9`, else `none`. -/
def digitVal (c : Char) : Option Nat :=
  if 48 ≤ c.toNat ∧ c.toNat ≤ 57 then some (c.toNat - 48) else none

/-- Reads a run of decimal digits, accumulating the value; fails on a non-digit. -/
def parseDigits : List Char → Nat → Option Nat
  | [], acc => some acc
  | c :: rest, acc =>
    match digitVal c with
    | none => none
    | some d => parseDigits rest (acc * 10 + d)

/-- True when every character is a decimal digit. -/
def allDigits (cs : List Char) : Bool :=
  cs.all fun c => decide (48 ≤ c.toNat ∧ c.toNat ≤ 57)

/-- Models one octet of the dotted-quad form accepted by `netaddr`: a nonempty
digit run whose value is at most 255. -/
def parseOctetChars (cs : List Char) : Option Nat :=
  match cs with
  | [] => none
  | _ :: _ =>
    match parseDigits cs 0 with
    | none => none
    | some n => if n ≤ 255 then some n else none

/-- Splits a character list at every dot. The auxiliary result is the chunk
before the first dot together with the remaining chunks. -/
def splitDotsAux : List Char → List Char × List (List Char)
  | [] => ([], [])
  | c :: rest =>
    match splitDotsAux rest with
    | (h, t) => if c = '.' then ([], h :: t) else (c :: h, t)

/-- Dot-separated chunks of a character list; always nonempty. -/
def splitDots (cs : List Char) : List (List Char) :=
  (splitDotsAux cs).1 :: (splitDotsAux cs).2

/-- Models `netaddr` parsing of a bare IPv4 address: exactly four octets,
yielding the 32-bit value. -/
def parseIPv4Chars (cs : List Char) : Option Nat :=
  match splitDots cs with
  | [a, b, c, d] =>
    match parseOctetChars a, parseOctetChars b, parseOctetChars c, parseOctetChars d with
    | some x, some y, some z, some w => some (((x * 256 + y) * 256 + z) * 256 + w)
    | _, _, _, _ => none
  | _ => none

/-- An IPv4 network as `netaddr.IPNetwork` keeps it: the (unmasked) address
value `ip` and the prefix length. -/
structure IPNetwork where
  ip : Nat
  prefixLen : Nat
deriving DecidableEq

/-- Number of addresses in a block with the given prefix length. -/
def IPNetwork.blockSize (n : IPNetwork) : Nat := 2 ^ (32 - n.prefixLen)

/-- First address of the network (the address with host bits cleared). -/
def IPNetwork.first (n : IPNetwork) : Nat := n.ip / n.blockSize * n.blockSize

/-- Last address of the network. -/
def IPNetwork.last (n : IPNetwork) : Nat := n.first + n.blockSize - 1

/-- Models `IPAddress(a) in IPNetwork(n)`: membership of an address value in
the network range. -/
def IPNetwork.containsAddr (n : IPNetwork) (a : Nat) : Bool :=
  decide (n.first ≤ a ∧ a ≤ n.last)

/-- Models `IPNetwork(inner) in IPNetwork(outer)`: the inner range lies
within the outer range. -/
def IPNetwork.containsNet (outer inner : IPNetwork) : Bool :=
  decide (outer.first ≤ inner.first ∧ inner.last ≤ outer.last)

/-- The netmask value of a prefix length `p ≤ 32`: `p` one bits then zeros. -/
def maskValue (p : Nat) : Nat := 2 ^ 32 - 2 ^ (32 - p)

/-- Recovers a prefix length from a netmask value, as `netaddr` does when the
part after the slash is a dotted netmask; fails on a non-contiguous mask. -/
def netmaskToPrefix (m : Nat) : Option Nat :=
  (List.range 33).find? fun p => decide (maskValue p = m)

/-- Splits at the first slash, as Python `addr.split('/', 1)` does when a
slash is present; `none` when there is no slash. -/
def splitSlash : List Char → Option (List Char × List Char)
  | [] => none
  | c :: rest =>
    if c = '/' then some ([], rest)
    else
      match splitSlash rest with
      | none => none
      | some (a, b) => some (c :: a, b)

/-- Models `netaddr.IPNetwork` on an IPv4 string: either a bare address
(implicit /32), an `addr/prefixlen` form, or an `addr/netmask` form. The
integer-prefix branch is taken exactly when the part after the slash is a
digit run, mirroring `int(val2)` succeeding. -/
def parseIPNetworkChars (cs : List Char) : Option IPNetwork :=
  match splitSlash cs with
  | none =>
    match parseIPv4Chars cs with
    | some v => some ⟨v, 32⟩
    | none => none
  | some (a, m) =>
    match parseIPv4Chars a with
    | none => none
    | some v =>
      if allDigits m && !m.isEmpty then
        match parseDigits m 0 with
        | none => none
        | some n => if n ≤ 32 then some ⟨v, n⟩ else none
      else
        match parseIPv4Chars m with
        | none => none
        | some mv =>
          match netmaskToPrefix mv with
          | none => none
          | some p => some ⟨v, p⟩

/-- String-level entry point of the network parser model. -/
def parseIPNetwork (s : String) : Option IPNetwork := parseIPNetworkChars s.data

/-- String-level entry point of the address parser model
(`netaddr.IPAddress` restricted to IPv4). -/
def parseIPAddress (s : String) : Option Nat := parseIPv4Chars s.data

/-- The character `48 + n` for a digit value `n < 10`. -/
def digitChar (n : Nat) : Char := Char.ofNat (48 + n)

/-- Decimal rendering of an octet value (up to three digits, no leading zeros). -/
def octChars (n : Nat) : List Char :=
  if n < 10 then [digitChar n]
  else if n < 100 then [digitChar (n / 10), digitChar (n % 10)]
  else [digitChar (n / 100), digitChar (n / 10 % 10), digitChar (n % 10)]

/-- Dotted-quad character rendering of a 32-bit address value. -/
def ipv4Chars (v : Nat) : List Char :=
  octChars (v / 16777216 % 256) ++ ('.' :: (octChars (v / 65536 % 256)
    ++ ('.' :: (octChars (v / 256 % 256) ++ ('.' :: octChars (v % 256))))))

/-- Models `str(cidr.ip)`: the canonical dotted-quad string of an address value. -/
def ipv4ToString (v : Nat) : String := String.mk (ipv4Chars v)

/-- One AF_INET entry of a `netifaces.ifaddresses` result: the assigned
address and netmask strings. -/
structure IfEntry where
  addr : String
  netmask : String
deriving DecidableEq

/-- One host interface in the snapshot: its name and its AF_INET entry list
(empty when AF_INET is absent for the interface). -/
structure Iface where
  name : String
  inet : List IfEntry
deriving DecidableEq

/-- Dictionary lookup on an entry, as `addresses[AF_INET][0][key]` does;
`none` models a `KeyError`. -/
def IfEntry.get (e : IfEntry) (key : String) : Option String :=
  if key = "addr" then some e.addr
  else if key = "netmask" then some e.netmask
  else none

/-- Result of a Python call: a normal return, a raised exception with its
message, or a process exit with its code and the error-level log message. -/
inductive Outcome (α : Type) where
  | ok (v : α)
  | error (msg : String)
  | exited (code : Nat) (logMsg : String)
deriving DecidableEq

/-- Renders the `network` argument the way `"%s" % network` does. -/
def optNetworkStr : Option String → String
  | none => "None"
  | some s => s

/-- Embeds `_validate_cidr`: `netaddr.IPNetwork(network)` with failures
(including `IPNetwork(None)`, which `netaddr` rejects) re-raised as a
`ValueError` naming the input. -/
def _validate_cidr (network : Option String) : Outcome Unit :=
  match network with
  | some s =>
    match parseIPNetwork s with
    | some _ => Outcome.ok ()
    | none => Outcome.error ("Network (" ++ s ++ ") is not in CIDR presentation format")
  | none => Outcome.error "Network (None) is not in CIDR presentation format"

/-- The `IPNetwork("%s/%s" % (addr, netmask))` built from an entry inside
the interface loops. -/
def parseEntryCidr (e : IfEntry) : Option IPNetwork :=
  parseIPNetwork (e.addr ++ "/" ++ e.netmask)

/-- Embeds the interface loop of `get_address_in_network`: for each interface
with an AF_INET entry, build the cidr of its first entry and return
`str(cidr.ip)` on the first entry contained in `nw`. A malformed entry makes
the `IPNetwork` constructor raise. -/
def scanForAddressIn : List Iface → IPNetwork → Outcome (Option String)
  | [], _ => Outcome.ok none
  | i :: rest, nw =>
    match i.inet.head? with
    | none => scanForAddressIn rest nw
    | some e =>
      match parseEntryCidr e with
      | none => Outcome.error ("invalid IPNetwork " ++ e.addr ++ "/" ++ e.netmask)
      | some cidr =>
        if nw.containsNet cidr then Outcome.ok (some (ipv4ToString cidr.ip))
        else scanForAddressIn rest nw

/-- Embeds `get_address_in_network(network, fallback, fatal)` over a snapshot.
When `network` is `None` with no fallback and `fatal` unset, control falls
through the `if network is None` block into `_validate_cidr(None)`, which
raises. -/
def get_address_in_network (snap : List Iface) (network fallback : Option String)
    (fatal : Bool) : Outcome (Option String) :=
  match network with
  | none =>
    match fallback with
    | some fb => Outcome.ok (some fb)
    | none =>
      if fatal then
        Outcome.exited 1 ("No IP address found in network: " ++ optNetworkStr none)
      else
        match _validate_cidr none with
        | Outcome.error m => Outcome.error m
        | _ => Outcome.error "unreachable"
  | some net =>
    match parseIPNetwork net with
    | none => Outcome.error ("Network (" ++ net ++ ") is not in CIDR presentation format")
    | some nw =>
      match scanForAddressIn snap nw with
      | Outcome.error m => Outcome.error m
      | Outcome.exited c m => Outcome.exited c m
      | Outcome.ok (some a) => Outcome.ok (some a)
      | Outcome.ok none =>
        match fallback with
        | some fb => Outcome.ok (some fb)
        | none =>
          if fatal then
            Outcome.exited 1 ("No IP address found in network: " ++ net)
          else Outcome.ok none

/-- Embeds `is_address_in_network(network, address)`: parse the network, then
the address, each failure re-raised as a `ValueError` naming the input; then
return the containment boolean. -/
def is_address_in_network (network address : String) : Outcome Bool :=
  match parseIPNetwork network with
  | none => Outcome.error ("Network (" ++ network ++ ") is not in CIDR presentation format")
  | some nw =>
    match parseIPAddress address with
    | none => Outcome.error ("Address (" ++ address ++ ") is not in correct presentation format")
    | some a => Outcome.ok (nw.containsAddr a)

/-- Embeds the interface loop of `_get_for_address`: on the first interface
whose first AF_INET entry range contains the address, return the interface
name for key `iface` and the entry attribute otherwise. -/
def getForAddressScan : List Iface → Nat → String → Outcome (Option String)
  | [], _, _ => Outcome.ok none
  | i :: rest, a, key =>
    match i.inet.head? with
    | none => getForAddressScan rest a key
    | some e =>
      match parseEntryCidr e with
      | none => Outcome.error ("invalid IPNetwork " ++ e.addr ++ "/" ++ e.netmask)
      | some cidr =>
        if cidr.containsAddr a then
          if key = "iface" then Outcome.ok (some i.name)
          else
            match e.get key with
            | some v => Outcome.ok (some v)
            | none => Outcome.error ("KeyError: " ++ key)
        else getForAddressScan rest a key

/-- Embeds `_get_for_address(address, key)`: `netaddr.IPAddress(address)` is
unguarded, so a malformed address raises an `AddrFormatError` naming it. -/
def _get_for_address (snap : List Iface) (address : String) (key : String) :
    Outcome (Option String) :=
  match parseIPAddress address with
  | none => Outcome.error ("failed to detect a valid IP address from " ++ address)
  | some a => getForAddressScan snap a key

/-- Embeds `get_iface_for_address(address)`. -/
def get_iface_for_address (snap : List Iface) (address : String) : Outcome (Option String) :=
  _get_for_address snap address "iface"

/-- Embeds `get_netmask_for_address(address)`. -/
def get_netmask_for_address (snap : List Iface) (address : String) : Outcome (Option String) :=
  _get_for_address snap address "netmask"

/-- An interface is well formed when its first AF_INET entry, if any, yields
a parsable `addr/netmask` string (as real `netifaces` data always does). -/
def entryOk (i : Iface) : Bool :=
  match i.inet.head? with
  | none => true
  | some e => (parseEntryCidr e).isSome

/-- A snapshot is well formed when every interface is. -/
def validSnapshot : List Iface → Bool
  | [] => true
  | i :: rest => entryOk i && validSnapshot rest

/-- Specification view of one step of the `get_address_in_network` loop: the
address the interface contributes when the cidr of its first AF_INET entry
lies inside `nw`. -/
def entryMatch (nw : IPNetwork) (i : Iface) : Option String :=
  match i.inet.head? with
  | none => none
  | some e =>
    match parseEntryCidr e with
    | none => none
    | some c => if nw.containsNet c then some (ipv4ToString c.ip) else none

/-- Specification view of one step of the `_get_for_address` loop: whether the
range of the first AF_INET entry of the interface contains the address. -/
def ifaceContains (a : Nat) (i : Iface) : Bool :=
  match i.inet.head? with
  | none => false
  | some e =>
    match parseEntryCidr e with
    | none => false
    | some c => c.containsAddr a

/-- A concrete two-interface snapshot used to instantiate the theorems. -/
def snapEx : List Iface :=
  [⟨"lo", [⟨"127.0.0.1", "255.0.0.0"⟩]⟩,
   ⟨"eth0", [⟨"192.168.1.5", "255.255.255.0"⟩]⟩]

theorem parseOctetChars_le {cs : List Char} {n : Nat}
    (h : parseOctetChars cs = some n) : n ≤ 255 := by
  cases cs with
  | nil => simp [parseOctetChars] at h
  | cons c rest =>
    rw [parseOctetChars] at h
    split at h
    · simp at h
    · split at h
      · cases h
        assumption
      · simp at h

set_option maxRecDepth 4096

theorem octChars_roundtrip : ∀ n, n < 256 → parseOctetChars (octChars n) = some n := by
  decide

theorem octChars_noDot : ∀ n, n < 256 →
    (octChars n).all (fun c => decide (c ≠ '.')) = true := by
  decide

theorem splitDotsAux_noDot {xs : List Char}
    (h : xs.all (fun c => decide (c ≠ '.')) = true) : splitDotsAux xs = (xs, []) := by
  induction xs with
  | nil => rfl
  | cons c rest ih =>
    simp only [List.all_cons, Bool.and_eq_true, decide_eq_true_eq] at h
    rw [splitDotsAux, ih h.2]
    simp [h.1]

theorem splitDotsAux_append {xs : List Char} (ys : List Char)
    (h : xs.all (fun c => decide (c ≠ '.')) = true) :
    splitDotsAux (xs ++ '.' :: ys) = (xs, (splitDotsAux ys).1 :: (splitDotsAux ys).2) := by
  induction xs with
  | nil =>
    rw [List.nil_append, splitDotsAux]
    simp
  | cons c rest ih =>
    simp only [List.all_cons, Bool.and_eq_true, decide_eq_true_eq] at h
    rw [List.cons_append, splitDotsAux, ih h.2]
    simp [h.1]

theorem splitDots_append {xs : List Char} (ys : List Char)
    (h : xs.all (fun c => decide (c ≠ '.')) = true) :
    splitDots (xs ++ '.' :: ys) = xs :: splitDots ys := by
  rw [splitDots, splitDotsAux_append ys h]
  rfl

theorem splitDots_noDot {xs : List Char}
    (h : xs.all (fun c => decide (c ≠ '.')) = true) : splitDots xs = [xs] := by
  rw [splitDots, splitDotsAux_noDot h]

theorem parseIPv4Chars_roundtrip {v : Nat} (h : v < 4294967296) :
    parseIPv4Chars (ipv4Chars v) = some v := by
  have h1 : v / 16777216 % 256 < 256 := Nat.mod_lt _ (by norm_num)
  have h2 : v / 65536 % 256 < 256 := Nat.mod_lt _ (by norm_num)
  have h3 : v / 256 % 256 < 256 := Nat.mod_lt _ (by norm_num)
  have h4 : v % 256 < 256 := Nat.mod_lt _ (by norm_num)
  rw [ipv4Chars, parseIPv4Chars]
  rw [splitDots_append _ (octChars_noDot _ h1), splitDots_append _ (octChars_noDot _ h2),
    splitDots_append _ (octChars_noDot _ h3), splitDots_noDot (octChars_noDot _ h4)]
  simp only [octChars_roundtrip _ h1, octChars_roundtrip _ h2, octChars_roundtrip _ h3,
    octChars_roundtrip _ h4, Option.some.injEq]
  omega

theorem parseIPAddress_roundtrip {v : Nat} (h : v < 4294967296) :
    parseIPAddress (ipv4ToString v) = some v :=
  parseIPv4Chars_roundtrip h

theorem parseIPv4Chars_lt {cs : List Char} {v : Nat}
    (h : parseIPv4Chars cs = some v) : v < 4294967296 := by
  rw [parseIPv4Chars] at h
  split at h
  · split at h
    · rename_i x y z w ha hb hc hd
      cases h
      have bx := parseOctetChars_le ha
      have by2 := parseOctetChars_le hb
      have bz := parseOctetChars_le hc
      have bw := parseOctetChars_le hd
      omega
    · simp at h
  · simp at h

theorem parseIPNetworkChars_ip_lt {cs : List Char} {c : IPNetwork}
    (h : parseIPNetworkChars cs = some c) : c.ip < 4294967296 := by
  rw [parseIPNetworkChars] at h
  split at h
  · split at h
    · rename_i v hv
      cases h
      exact parseIPv4Chars_lt hv
    · simp at h
  · split at h
    · simp at h
    · rename_i v hv
      split at h
      · split at h
        · simp at h
        · split at h
          · cases h
            exact parseIPv4Chars_lt hv
          · simp at h
      · split at h
        · simp at h
        · split at h
          · simp at h
          · cases h
            exact parseIPv4Chars_lt hv

theorem parseEntryCidr_ip_lt {e : IfEntry} {c : IPNetwork}
    (h : parseEntryCidr e = some c) : c.ip < 4294967296 :=
  parseIPNetworkChars_ip_lt h

theorem containsAddr_self (c : IPNetwork) : c.containsAddr c.ip = true := by
  have hb : 0 < c.blockSize := Nat.pow_pos (by norm_num)
  have hd : c.ip / c.blockSize * c.blockSize + c.ip % c.blockSize = c.ip :=
    Nat.div_add_mod' _ _
  have hm : c.ip % c.blockSize < c.blockSize := Nat.mod_lt _ hb
  rw [IPNetwork.containsAddr, IPNetwork.last, IPNetwork.first]
  simp only [decide_eq_true_eq]
  generalize c.ip / c.blockSize * c.blockSize = A at hd ⊢
  generalize c.ip % c.blockSize = r at hd hm
  generalize c.blockSize = bs at hm ⊢
  omega

theorem containsNet_containsAddr {outer inner : IPNetwork} {a : Nat}
    (h1 : outer.containsNet inner = true) (h2 : inner.containsAddr a = true) :
    outer.containsAddr a = true := by
  rw [IPNetwork.containsNet] at h1
  rw [IPNetwork.containsAddr] at h2 ⊢
  simp only [decide_eq_true_eq] at h1 h2 ⊢
  omega

theorem scanForAddressIn_no_exit (snap : List Iface) (nw : IPNetwork) (c : Nat) (m : String) :
    scanForAddressIn snap nw ≠ Outcome.exited c m := by
  induction snap with
  | nil => simp [scanForAddressIn]
  | cons i rest ih =>
    rw [scanForAddressIn]
    cases he : i.inet.head? with
    | none => exact ih
    | some e =>
      cases hc : parseEntryCidr e with
      | none => simp [hc]
      | some cidr =>
        by_cases hin : nw.containsNet cidr = true
        · simp [hc, hin]
        · simp [hc, hin, ih]

theorem scanForAddressIn_eq {snap : List Iface} (nw : IPNetwork)
    (hv : validSnapshot snap = true) :
    scanForAddressIn snap nw = Outcome.ok (snap.findSome? (entryMatch nw)) := by
  induction snap with
  | nil => rfl
  | cons i rest ih =>
    rw [validSnapshot, Bool.and_eq_true] at hv
    obtain ⟨h1, h2⟩ := hv
    rw [scanForAddressIn, List.findSome?_cons]
    cases he : i.inet.head? with
    | none =>
      have hm : entryMatch nw i = none := by rw [entryMatch, he]
      rw [hm, ih h2]
    | some e =>
      rw [entryOk, he, Option.isSome_iff_exists] at h1
      obtain ⟨cidr, hc⟩ := h1
      dsimp only
      rw [hc]
      dsimp only
      by_cases hin : nw.containsNet cidr = true
      · have hm : entryMatch nw i = some (ipv4ToString cidr.ip) := by
          rw [entryMatch, he]
          dsimp only
          rw [hc]
          dsimp only
          rw [if_pos hin]
        rw [if_pos hin, hm]
      · have hm : entryMatch nw i = none := by
          rw [entryMatch, he]
          dsimp only
          rw [hc]
          dsimp only
          rw [if_neg hin]
        rw [if_neg hin, hm, ih h2]

theorem scanForAddressIn_ok_some {snap : List Iface} {nw : IPNetwork} {a : String}
    (h : scanForAddressIn snap nw = Outcome.ok (some a)) :
    ∃ c : IPNetwork, nw.containsNet c = true ∧ c.ip < 4294967296 ∧ a = ipv4ToString c.ip := by
  induction snap with
  | nil => simp [scanForAddressIn] at h
  | cons i rest ih =>
    rw [scanForAddressIn] at h
    cases he : i.inet.head? with
    | none =>
      rw [he] at h
      exact ih h
    | some e =>
      rw [he] at h
      dsimp only at h
      cases hc : parseEntryCidr e with
      | none => rw [hc] at h; simp at h
      | some cidr =>
        rw [hc] at h
        dsimp only at h
        by_cases hin : nw.containsNet cidr = true
        · rw [if_pos hin] at h
          refine ⟨cidr, hin, parseEntryCidr_ip_lt hc, ?_⟩
          cases h
          rfl
        · rw [if_neg hin] at h
          exact ih h

theorem getForAddressScan_no_exit (snap : List Iface) (a : Nat) (key : String)
    (c : Nat) (m : String) : getForAddressScan snap a key ≠ Outcome.exited c m := by
  induction snap with
  | nil => simp [getForAddressScan]
  | cons i rest ih =>
    rw [getForAddressScan]
    cases he : i.inet.head? with
    | none => exact ih
    | some e =>
      dsimp only
      cases hc : parseEntryCidr e with
      | none => simp
      | some cidr =>
        dsimp only
        by_cases hin : cidr.containsAddr a = true
        · rw [if_pos hin]
          by_cases hk : key = "iface"
          · simp [hk]
          · cases hg : e.get key with
            | none => simp [hk, hg]
            | some v => simp [hk, hg]
        · rw [if_neg hin]
          exact ih

theorem getForAddressScan_eq {snap : List Iface} (a : Nat) (key : String)
    (hk : key = "iface" ∨ key = "netmask") (hv : validSnapshot snap = true) :
    getForAddressScan snap a key = Outcome.ok
      ((snap.find? (ifaceContains a)).bind fun i =>
        if key = "iface" then some i.name
        else i.inet.head?.bind fun e => e.get key) := by
  induction snap with
  | nil => rfl
  | cons i rest ih =>
    rw [validSnapshot, Bool.and_eq_true] at hv
    obtain ⟨h1, h2⟩ := hv
    rw [getForAddressScan]
    cases he : i.inet.head? with
    | none =>
      have hf : ifaceContains a i = false := by
        rw [ifaceContains, he]
      rw [List.find?_cons_of_neg _ (by simp [hf]), ih h2]
    | some e =>
      rw [entryOk, he, Option.isSome_iff_exists] at h1
      obtain ⟨cidr, hc⟩ := h1
      dsimp only
      rw [hc]
      dsimp only
      have hfi : ifaceContains a i = cidr.containsAddr a := by
        rw [ifaceContains, he]
        dsimp only
        rw [hc]
      by_cases hin : cidr.containsAddr a = true
      · rw [if_pos hin, List.find?_cons_of_pos _ (by rw [hfi]; exact hin)]
        rcases hk with hk | hk
        · rw [hk]
          simp
        · rw [hk]
          simp [he, IfEntry.get]
      · rw [if_neg hin, List.find?_cons_of_neg _ (by rw [hfi]; exact hin), ih h2]

theorem ifaceContains_true {a : Nat} {i : Iface} (h : ifaceContains a i = true) :
    ∃ e c, i.inet.head? = some e ∧ parseEntryCidr e = some c ∧ c.containsAddr a = true := by
  rw [ifaceContains] at h
  cases he : i.inet.head? with
  | none => rw [he] at h; simp at h
  | some e =>
    rw [he] at h
    dsimp only at h
    cases hc : parseEntryCidr e with
    | none => rw [hc] at h; simp at h
    | some c =>
      rw [hc] at h
      exact ⟨e, c, rfl, hc, h⟩

/-- C1: the spec claims `get_address_in_network(None, fallback=None, fatal=False)`
returns the absent value; on the code, for every snapshot, that call instead
falls through the `network is None` block into `_validate_cidr(None)` and
raises a `ValueError` (the later upstream fix adds the missing `return None`). -/
theorem get_address_in_network_none_none_raises (snap : List Iface) :
    get_address_in_network snap none none false =
      Outcome.error "Network (None) is not in CIDR presentation format" := rfl

/-- C2: over a well-formed snapshot and a valid CIDR network,
`get_address_in_network` scans the interfaces in enumeration order, considers
only the first AF_INET entry of each interface, and returns the address of the
first entry whose address/netmask range is contained in the network; with no
match it falls back (fallback, then fatal exit, then absent). -/
theorem get_address_in_network_first_match (snap : List Iface) (net : String)
    (nw : IPNetwork) (fallback : Option String) (fatal : Bool)
    (hnet : parseIPNetwork net = some nw) (hv : validSnapshot snap = true) :
    get_address_in_network snap (some net) fallback fatal =
      match snap.findSome? (entryMatch nw) with
      | some a => Outcome.ok (some a)
      | none =>
        match fallback with
        | some fb => Outcome.ok (some fb)
        | none =>
          if fatal then Outcome.exited 1 ("No IP address found in network: " ++ net)
          else Outcome.ok none := by
  rw [get_address_in_network.eq_def]
  dsimp only
  rw [hnet]
  dsimp only
  rw [scanForAddressIn_eq nw hv]
  cases snap.findSome? (entryMatch nw) <;> rfl

/-- Witness for C2 on a concrete snapshot and network. -/
theorem get_address_in_network_first_match_witness :
    get_address_in_network snapEx (some "192.168.1.0/24") none false =
      match snapEx.findSome? (entryMatch ⟨3232235776, 24⟩) with
      | some a => Outcome.ok (some a)
      | none =>
        match (none : Option String) with
        | some fb => Outcome.ok (some fb)
        | none =>
          if false then Outcome.exited 1 ("No IP address found in network: " ++ "192.168.1.0/24")
          else Outcome.ok none :=
  get_address_in_network_first_match snapEx "192.168.1.0/24" ⟨3232235776, 24⟩ none false
    (by decide) (by decide)

/-- C3: every malformed CIDR string makes both `is_address_in_network` and
`get_address_in_network` raise a `ValueError` whose message names the bad
input; neither call silently coerces it. -/
theorem malformed_cidr_raises (s : String) (hs : parseIPNetwork s = none) :
    (∀ address : String, is_address_in_network s address =
        Outcome.error ("Network (" ++ s ++ ") is not in CIDR presentation format")) ∧
    (∀ (snap : List Iface) (fallback : Option String) (fatal : Bool),
        get_address_in_network snap (some s) fallback fatal =
          Outcome.error ("Network (" ++ s ++ ") is not in CIDR presentation format")) := by
  constructor
  · intro address
    rw [is_address_in_network, hs]
  · intro snap fallback fatal
    rw [get_address_in_network.eq_def]
    dsimp only
    rw [hs]

/-- Witness for C3 at the spec's example input `not-a-cidr`. -/
theorem malformed_cidr_raises_witness :
    is_address_in_network "not-a-cidr" "192.168.1.5" =
      Outcome.error ("Network (" ++ "not-a-cidr" ++ ") is not in CIDR presentation format") ∧
    get_address_in_network snapEx (some "not-a-cidr") none false =
      Outcome.error ("Network (" ++ "not-a-cidr" ++ ") is not in CIDR presentation format") :=
  ⟨(malformed_cidr_raises "not-a-cidr" (by decide)).1 "192.168.1.5",
    (malformed_cidr_raises "not-a-cidr" (by decide)).2 snapEx none false⟩

/-- C4: `is_address_in_network` parses both arguments and returns exactly the
containment boolean; in particular the spec's two examples evaluate to true
and false. -/
theorem is_address_in_network_containment :
    (∀ (network address : String) (nw : IPNetwork) (a : Nat),
        parseIPNetwork network = some nw → parseIPAddress address = some a →
        is_address_in_network network address = Outcome.ok (nw.containsAddr a)) ∧
    is_address_in_network "192.168.1.0/24" "192.168.1.5" = Outcome.ok true ∧
    is_address_in_network "192.168.1.0/24" "10.0.0.5" = Outcome.ok false := by
  refine ⟨?_, by decide, by decide⟩
  intro network address nw a h1 h2
  rw [is_address_in_network, h1]
  dsimp only
  rw [h2]

/-- Witness for C4's general containment clause at a concrete pair. -/
theorem is_address_in_network_containment_witness :
    is_address_in_network "192.168.1.0/24" "192.168.1.5" =
      Outcome.ok ((⟨3232235776, 24⟩ : IPNetwork).containsAddr 3232235781) :=
  is_address_in_network_containment.1 "192.168.1.0/24" "192.168.1.5"
    ⟨3232235776, 24⟩ 3232235781 (by decide) (by decide)

/-- C5: the fatal exit happens only in `get_address_in_network`, and only with
`fatal=True`, no fallback and no matching address; it then logs the error and
exits with code 1 (both for an absent network and for a valid network with no
match). `is_address_in_network` and `_get_for_address` never terminate the
process. -/
theorem fatal_exit_only :
    (∀ (snap : List Iface) (network fallback : Option String) (fatal : Bool)
        (c : Nat) (m : String),
        get_address_in_network snap network fallback fatal = Outcome.exited c m →
        fatal = true ∧ fallback = none ∧ c = 1) ∧
    (∀ (snap : List Iface) (net : String) (nw : IPNetwork),
        parseIPNetwork net = some nw → validSnapshot snap = true →
        snap.findSome? (entryMatch nw) = none →
        get_address_in_network snap (some net) none true =
          Outcome.exited 1 ("No IP address found in network: " ++ net)) ∧
    (∀ snap : List Iface, get_address_in_network snap none none true =
        Outcome.exited 1 "No IP address found in network: None") ∧
    (∀ (network address : String) (c : Nat) (m : String),
        is_address_in_network network address ≠ Outcome.exited c m) ∧
    (∀ (snap : List Iface) (address key : String) (c : Nat) (m : String),
        _get_for_address snap address key ≠ Outcome.exited c m) := by
  refine ⟨?_, ?_, ?_, ?_, ?_⟩
  · intro snap network fallback fatal c m h
    cases network with
    | none =>
      cases fallback with
      | some fb => simp [get_address_in_network] at h
      | none =>
        cases fatal with
        | false => simp [get_address_in_network, _validate_cidr] at h
        | true =>
          simp only [get_address_in_network, Outcome.exited.injEq] at h
          obtain ⟨h1, h2⟩ := h
          exact ⟨rfl, rfl, by omega⟩
    | some net =>
      rw [get_address_in_network.eq_def] at h
      dsimp only at h
      cases hp : parseIPNetwork net with
      | none => rw [hp] at h; simp at h
      | some nw =>
        rw [hp] at h
        dsimp only at h
        cases hs : scanForAddressIn snap nw with
        | error ms => rw [hs] at h; simp at h
        | exited cc mm => exact absurd hs (scanForAddressIn_no_exit snap nw cc mm)
        | ok v =>
          rw [hs] at h
          cases v with
          | some a => simp at h
          | none =>
            dsimp only at h
            cases fallback with
            | some fb => simp at h
            | none =>
              cases fatal with
              | false => simp at h
              | true =>
                simp only [Outcome.exited.injEq] at h
                obtain ⟨h1, h2⟩ := h
                exact ⟨rfl, rfl, by omega⟩
  · intro snap net nw hp hv hfind
    rw [get_address_in_network.eq_def]
    dsimp only
    rw [hp]
    dsimp only
    rw [scanForAddressIn_eq nw hv, hfind]
    rfl
  · intro snap
    rfl
  · intro network address c m
    rw [is_address_in_network.eq_def]
    cases parseIPNetwork network with
    | none => simp
    | some nw =>
      dsimp only
      cases parseIPAddress address with
      | none => simp
      | some a => simp
  · intro snap address key c m
    rw [_get_for_address.eq_def]
    cases parseIPAddress address with
    | none => simp
    | some a =>
      dsimp only
      exact getForAddressScan_no_exit snap a key c m

/-- Witness for C5's positive fatal-exit clause on a concrete snapshot with no
match in the requested network. -/
theorem fatal_exit_only_witness :
    get_address_in_network snapEx (some "10.0.0.0/8") none true =
      Outcome.exited 1 ("No IP address found in network: " ++ "10.0.0.0/8") :=
  fatal_exit_only.2.1 snapEx "10.0.0.0/8" ⟨167772160, 8⟩ (by decide) (by decide) (by decide)

/-- C6: with an absent network and a provided fallback,
`get_address_in_network` returns the fallback, whatever the fatal flag and
the snapshot. -/
theorem get_address_in_network_fallback_on_none (snap : List Iface) (fb : String)
    (fatal : Bool) :
    get_address_in_network snap none (some fb) fatal = Outcome.ok (some fb) := rfl

/-- C7: for a valid address over a well-formed snapshot,
`get_iface_for_address` and `get_netmask_for_address` both return the absent
value when no interface subnet contains the address, and return the first
containing interface's name and its first entry's netmask otherwise. -/
theorem get_for_address_found_and_absent (snap : List Iface) (address : String) (a : Nat)
    (hp : parseIPAddress address = some a) (hv : validSnapshot snap = true) :
    ((∀ i ∈ snap, ifaceContains a i = false) →
        get_iface_for_address snap address = Outcome.ok none ∧
        get_netmask_for_address snap address = Outcome.ok none) ∧
    (∀ i e, snap.find? (ifaceContains a) = some i → i.inet.head? = some e →
        get_iface_for_address snap address = Outcome.ok (some i.name) ∧
        get_netmask_for_address snap address = Outcome.ok (some e.netmask)) := by
  have hif := getForAddressScan_eq a "iface" (Or.inl rfl) hv
  have hnm := getForAddressScan_eq a "netmask" (Or.inr rfl) hv
  have hgi : get_iface_for_address snap address = getForAddressScan snap a "iface" := by
    rw [get_iface_for_address, _get_for_address.eq_def, hp]
  have hgn : get_netmask_for_address snap address = getForAddressScan snap a "netmask" := by
    rw [get_netmask_for_address, _get_for_address.eq_def, hp]
  constructor
  · intro habs
    have hfind : snap.find? (ifaceContains a) = none :=
      List.find?_eq_none.mpr (by intro x hx; simp [habs x hx])
    rw [hgi, hgn, hif, hnm, hfind]
    exact ⟨rfl, rfl⟩
  · intro i e hfind he
    rw [hgi, hgn, hif, hnm, hfind]
    constructor
    · rfl
    · simp [he, IfEntry.get]

/-- Witness for C7's found clause on a concrete snapshot and bindable address. -/
theorem get_for_address_found_and_absent_witness :
    get_iface_for_address snapEx "192.168.1.77" =
      Outcome.ok (some (Iface.name ⟨"eth0", [⟨"192.168.1.5", "255.255.255.0"⟩]⟩)) ∧
    get_netmask_for_address snapEx "192.168.1.77" =
      Outcome.ok (some (IfEntry.netmask ⟨"192.168.1.5", "255.255.255.0"⟩)) :=
  (get_for_address_found_and_absent snapEx "192.168.1.77" 3232235853
      (by decide) (by decide)).2
    ⟨"eth0", [⟨"192.168.1.5", "255.255.255.0"⟩]⟩ ⟨"192.168.1.5", "255.255.255.0"⟩
    (by decide) (by decide)

/-- C8: a malformed address string makes `get_iface_for_address` and
`get_netmask_for_address` raise the parser's error naming the bad input,
rather than coercing it or returning the absent value. -/
theorem get_for_address_malformed_raises (snap : List Iface) (address : String)
    (hp : parseIPAddress address = none) :
    get_iface_for_address snap address =
      Outcome.error ("failed to detect a valid IP address from " ++ address) ∧
    get_netmask_for_address snap address =
      Outcome.error ("failed to detect a valid IP address from " ++ address) := by
  constructor
  · rw [get_iface_for_address, _get_for_address.eq_def, hp]
  · rw [get_netmask_for_address, _get_for_address.eq_def, hp]

/-- Witness for C8 at a concrete malformed address. -/
theorem get_for_address_malformed_raises_witness :
    get_iface_for_address snapEx "not-an-ip" =
      Outcome.error ("failed to detect a valid IP address from " ++ "not-an-ip") ∧
    get_netmask_for_address snapEx "not-an-ip" =
      Outcome.error ("failed to detect a valid IP address from " ++ "not-an-ip") :=
  get_for_address_malformed_raises snapEx "not-an-ip" (by decide)

/-- C9: round trip — when `get_address_in_network` (with no fallback, so any
returned address comes from the interface scan) returns an address for a
valid CIDR network, `is_address_in_network` affirms that the address lies in
that network. -/
theorem get_address_result_in_network (snap : List Iface) (net a : String)
    (nw : IPNetwork) (fatal : Bool)
    (hnet : parseIPNetwork net = some nw)
    (hga : get_address_in_network snap (some net) none fatal = Outcome.ok (some a)) :
    is_address_in_network net a = Outcome.ok true := by
  rw [get_address_in_network.eq_def] at hga
  dsimp only at hga
  rw [hnet] at hga
  dsimp only at hga
  cases hs : scanForAddressIn snap nw with
  | error ms => rw [hs] at hga; simp at hga
  | exited cc mm => exact absurd hs (scanForAddressIn_no_exit snap nw cc mm)
  | ok v =>
    rw [hs] at hga
    cases v with
    | none =>
      dsimp only at hga
      cases fatal with
      | false => simp at hga
      | true => simp at hga
    | some x =>
      dsimp only at hga
      have hx : x = a := by
        simpa using hga
      subst hx
      obtain ⟨cd, hsub, hlt, hstr⟩ := scanForAddressIn_ok_some hs
      subst hstr
      rw [is_address_in_network.eq_def, hnet]
      dsimp only
      rw [parseIPAddress_roundtrip hlt]
      dsimp only
      rw [containsNet_containsAddr hsub (containsAddr_self cd)]

/-- Witness for C9 at a concrete snapshot where the scan finds `192.168.1.5`. -/
theorem get_address_result_in_network_witness :
    is_address_in_network "192.168.1.0/24" "192.168.1.5" = Outcome.ok true :=
  get_address_result_in_network snapEx "192.168.1.0/24" "192.168.1.5"
    ⟨3232235776, 24⟩ false (by decide) (by decide)

/-- C10: over the same snapshot, `get_iface_for_address` and
`get_netmask_for_address` agree — one returns the absent value exactly when
the other does, and when both return a value it comes from the same first
matching interface's first AF_INET entry. -/
theorem iface_netmask_agree (snap : List Iface) (address : String) (a : Nat)
    (hp : parseIPAddress address = some a) (hv : validSnapshot snap = true) :
    ((get_iface_for_address snap address = Outcome.ok none) ↔
      (get_netmask_for_address snap address = Outcome.ok none)) ∧
    (∀ i e, snap.find? (ifaceContains a) = some i → i.inet.head? = some e →
      get_iface_for_address snap address = Outcome.ok (some i.name) ∧
      get_netmask_for_address snap address = Outcome.ok (some e.netmask)) := by
  have hif := getForAddressScan_eq a "iface" (Or.inl rfl) hv
  have hnm := getForAddressScan_eq a "netmask" (Or.inr rfl) hv
  have hgi : get_iface_for_address snap address = getForAddressScan snap a "iface" := by
    rw [get_iface_for_address, _get_for_address.eq_def, hp]
  have hgn : get_netmask_for_address snap address = getForAddressScan snap a "netmask" := by
    rw [get_netmask_for_address, _get_for_address.eq_def, hp]
  constructor
  · rw [hgi, hgn, hif, hnm]
    cases hfind : snap.find? (ifaceContains a) with
    | none => simp
    | some i =>
      obtain ⟨e, c, he, hc, hca⟩ := ifaceContains_true (List.find?_some hfind)
      simp [he, IfEntry.get]
  · intro i e hfind he
    rw [hgi, hgn, hif, hnm, hfind]
    constructor
    · rfl
    · simp [he, IfEntry.get]

/-- Witness for C10 at a concrete snapshot where the loopback interface
matches. -/
theorem iface_netmask_agree_witness :
    (get_iface_for_address snapEx "127.0.0.55" = Outcome.ok none) ↔
      (get_netmask_for_address snapEx "127.0.0.55" = Outcome.ok none) :=
  (iface_netmask_agree snapEx "127.0.0.55" 2130706487 (by decide) (by decide)).1
